import Mathlib

/-!
Shallow embedding of the summarizer application
(`Summary_Model_Intermidate_1.py`, variant 1, and
`Summary_Model_Intermediate_2.py`, variant 2).

Modelling conventions:
* Python strings are Lean `String`s; Python truthiness of a string is
  `s ≠ ""`; `str.strip()` is `pyStrip` (the ASCII whitespace Python strips).
* The remote language model (`llm` inside the `LLMChain`) is an oracle
  `Svc : String → Except String String`: applied to the formatted prompt it
  either returns the raw completion (`Except.ok`) or raises an exception
  carrying a message (`Except.error`).
* `@st.cache_data(ttl=3600)` memoizes `generate_response` on its argument
  tuple `(txt, max_len, min_len)`.  It is embedded by explicit state
  passing: a `Cache` value and the current time `now` are threaded through
  `generate_response`, which returns the displayed string, the updated
  cache, and the list of prompts actually sent to the remote service during
  the call (empty on a cache hit).  The list of sent prompts is
  observational instrumentation used to state non-invocation properties.
* File parsing libraries (`fitz` for PDF, `python-docx` for DOCX) are
  oracles stored in the `UploadedFile` record: the page texts respectively
  paragraph texts on success, or the exception message on failure.
* Streamlit session state (`extracted_text`, `use_file_content`) is the
  explicit record `SessionState`.
-/

/-- Python ASCII whitespace as stripped by `str.strip()`. -/
def isPySpace (c : Char) : Bool :=
  c == ' ' || c == '\t' || c == '\n' || c == '\r' || c == '\x0b' || c == '\x0c'

/-- Embedding of Python `s.strip()`: drop leading and trailing whitespace. -/
def pyStrip (s : String) : String :=
  String.mk (((s.toList.dropWhile isPySpace).reverse.dropWhile isPySpace).reverse)

/-- Embedding of Python `s.replace("Summary:", "")`: remove every
(left-to-right, non-overlapping) occurrence of the substring `"Summary:"`. -/
def removeSummaryAll : List Char → List Char
  | 'S' :: 'u' :: 'm' :: 'm' :: 'a' :: 'r' :: 'y' :: ':' :: rest => removeSummaryAll rest
  | c :: rest => c :: removeSummaryAll rest
  | [] => []

/-- The response normalization done by `generate_response` in both variants:
`summary.replace("Summary:", "").strip()`. -/
def normalize_summary (raw : String) : String :=
  pyStrip (String.mk (removeSummaryAll raw.toList))

/-- Drop a single literal leading `"Summary:"` label, if present. -/
def dropLeadingSummary : List Char → List Char
  | 'S' :: 'u' :: 'm' :: 'm' :: 'a' :: 'r' :: 'y' :: ':' :: rest => rest
  | l => l

/-- Modelled from the spec (for comparison with `normalize_summary`, which is
the code's behaviour): strip one literal *leading* `"Summary:"` label and the
surrounding whitespace, preserving occurrences of `"Summary:"` elsewhere. -/
def spec_strip_leading (raw : String) : String :=
  pyStrip (String.mk (dropLeadingSummary raw.toList))

/-- `PromptTemplate` substitution: replace each `\x7btext\x7d` placeholder in the
template by the input text (Python `str.format`-style substitution). -/
def substText (txt : List Char) : List Char → List Char
  | '\x7b' :: 't' :: 'e' :: 'x' :: 't' :: '\x7d' :: rest => txt ++ substText txt rest
  | c :: rest => c :: substText txt rest
  | [] => []

/-- Build the prompt actually sent: the fixed template with the user text
substituted for the placeholder. -/
def formatPrompt (tmpl txt : String) : String :=
  String.mk (substText txt.toList tmpl.toList)

/-- Prompt template of variant 1 (`load_summarizer` in
`Summary_Model_Intermidate_1.py`): the structured 3-section template. -/
def app1_template : String :=
  "You are given a detailed passage. Write a well-structured and non-repetitive \n                    summary with the following sections:\n                        1. **Key Points** – Highlight the core ideas or arguments.\n                        2. **Important Details** – Include relevant supporting information or examples.\n                        3. **Main Conclusions** – Summarize the overall insights or takeaways.\n                    Ensure clarity, logical flow, and avoid repeating the original wording directly.\n\n                    Text to summarize:\x7btext\x7d\n\n                    Summary:"

/-- Prompt template of variant 2 (`load_summarizer` in
`Summary_Model_Intermediate_2.py`): the free-form template. -/
def app2_template : String :=
  "Generate a comprehensive and clear summary of the uploaded project report.\n                    Use the best summarization method depending on the content structure — \n                    you may use bullet points, numbered lists, tables, or article-style paragraphs as \n                    appropriate to maximize clarity and conciseness.\n                    \n                    The summary should: \n                    Key Points Highlight the core ideas or arguments.\n                    Include relevant supporting information or examples or Important Details  .\n                    Summarize the overall insights or takeaways as conclusion .\n                    Ensure clarity, logical flow, and avoid repeating the original wording directly.\n                    Try to keep it short, easy to read, and informative — like something you\x27d \n                    share with a person who wants to quickly understand what the document was all about\n\n                    Text to summarize:\x7btext\x7d\n\n                    Summary:"

/-- An `LLMChain` as far as the pipeline observes it: the fixed prompt
template it formats the input into. -/
structure ChainT where
  template : String

/-- The remote model as an oracle: prompt in, either the raw completion or a
raised exception's message. -/
def Svc : Type := String → Except String String

/-- Variant 2 halts at startup (`st.stop()`) when `OPENAI_API_KEY` is absent
from the environment: it proceeds to accept input iff the key is present. -/
def app2_startup (env : Option String) : Bool :=
  env.isSome

/-- Variant 1 performs no environment validation at module top level: startup
always proceeds to accept input, regardless of the key. -/
def app1_startup (_env : Option String) : Bool :=
  true

/-- Variant 1's `load_summarizer`: reads `os.environ["OPENAI_API_KEY"]` inside
its `try` block; a missing key raises `KeyError`, which the handler turns into
a `None` chain.  (Other construction failures would also yield `None`; the
environment read is the modelled failure source.) -/
def load_summarizer1 (env : Option String) : Option ChainT :=
  match env with
  | some _ => some { template := app1_template }
  | none => none

/-- Variant 2's `load_summarizer`: the key was already validated at startup,
so chain construction is modelled as succeeding. -/
def load_summarizer2 : Option ChainT :=
  some { template := app2_template }

/-- Outcome of one execution of the body of `generate_response`: the returned
string and the prompts sent to the remote service during the execution. -/
structure GenResult where
  out : String
  calls : List String
  deriving DecidableEq

/-- The body of `generate_response(txt, max_len, min_len)` (identical logic in
both variants): reject blank input, report an unavailable chain, otherwise run
the chain and normalize, catching any exception into an in-band error string.
`max_len` and `min_len` are accepted but unused, as in the source. -/
def generate_response_body (chain : Option ChainT) (svc : Svc) (txt : String)
    (max_len min_len : Nat) : GenResult :=
  if txt = "" ∨ pyStrip txt = "" then
    { out := "Please enter valid text", calls := [] }
  else
    match chain with
    | none => { out := "⚙️ Model unavailable", calls := [] }
    | some ch =>
      match svc (formatPrompt ch.template txt) with
      | Except.ok summary =>
          { out := normalize_summary summary, calls := [formatPrompt ch.template txt] }
      | Except.error e =>
          { out := "⚠️ Error: " ++ e, calls := [formatPrompt ch.template txt] }

/-- Cache key of `@st.cache_data`: the argument tuple `(txt, max_len, min_len)`. -/
def CacheKey : Type := String × Nat × Nat

instance : DecidableEq CacheKey :=
  instDecidableEqProd

/-- The `st.cache_data` store: entries `(key, value, insertedAt)`. -/
def Cache : Type := List (CacheKey × String × Nat)

/-- TTL of the `st.cache_data` decorator on `generate_response` (seconds). -/
def cacheTTL : Nat := 3600

/-- Find the entry for a key (most recent write shadows older ones). -/
def lookupEntry : Cache → CacheKey → Option (String × Nat)
  | [], _ => none
  | (k', v, t) :: rest, k => if k' = k then some (v, t) else lookupEntry rest k

/-- Cache read with lazy TTL expiry: an entry is visible only while
`now - insertedAt < cacheTTL`; an expired entry behaves as absent. -/
def lookupCache (c : Cache) (k : CacheKey) (now : Nat) : Option String :=
  match lookupEntry c k with
  | some (v, t) => if now - t < cacheTTL then some v else none
  | none => none

/-- Cache write: unconditionally (shadowing) stores the value at time `now`. -/
def insertCache (c : Cache) (k : CacheKey) (v : String) (now : Nat) : Cache :=
  (k, v, now) :: c

/-- `generate_response` as decorated by `@st.cache_data(ttl=3600)`: on a hit
the stored string is returned and the body is not executed (no prompt is
sent); on a miss the body runs and its returned string is stored — including
the in-band error and advisory strings, since the body never raises. -/
def generate_response (c : Cache) (now : Nat) (chain : Option ChainT) (svc : Svc)
    (txt : String) (max_len min_len : Nat) : String × Cache × List String :=
  match lookupCache c (txt, max_len, min_len) now with
  | some v => (v, c, [])
  | none =>
    let r := generate_response_body chain svc txt max_len min_len
    (r.out, insertCache c (txt, max_len, min_len) r.out now, r.calls)

/-- The summary density options offered in the sidebar.  Variant 1 offers all
three; variant 2 offers `Concise` and `Balanced`. -/
inductive Density where
  | Concise
  | Balanced
  | Detailed
  deriving DecidableEq

/-- The `length_params` table mapping a density to `(max_length, min_length)`
(variant 1's table; variant 2 agrees on the two densities it offers). -/
def length_params : Density → Nat × Nat
  | Density.Concise => (80, 40)
  | Density.Balanced => (150, 90)
  | Density.Detailed => (300, 150)

/-- The submit handler inside the `summary_form` (identical in both variants):
blank input is rejected with a fixed warning before `generate_response` is
ever called; otherwise the density's length parameters are passed through. -/
def summary_form (c : Cache) (now : Nat) (chain : Option ChainT) (svc : Svc)
    (txt_input : String) (summary_length : Density) : String × Cache × List String :=
  if pyStrip txt_input = "" then
    ("📝 Please enter text before submitting", c, [])
  else
    generate_response c now chain svc txt_input
      (length_params summary_length).1 (length_params summary_length).2

/-- Declared media type of an upload (`uploaded_file.type`). -/
inductive FileKind where
  | pdf
  | docx
  | other
  deriving DecidableEq

/-- An uploaded file together with the parsing oracles: what `fitz` would
yield for it as page texts, and what `python-docx` would yield as paragraph
texts — each either the parsed pieces or a raised exception's message. -/
structure UploadedFile where
  kind : FileKind
  pdfPages : Except String (List String)
  docxParas : Except String (List String)

/-- `extract_text_from_file` (variant 2): PDF pages are concatenated in page
order, DOCX paragraphs are joined with newlines, an unsupported type gets a
warning, and a parser exception is caught into a user-facing error message.
Returns `(extracted text or none, user-facing failure message if any)`. -/
def extract_text_from_file (f : UploadedFile) : Option String × Option String :=
  match f.kind with
  | FileKind.pdf =>
    match f.pdfPages with
    | Except.ok pages => (some (String.join pages), none)
    | Except.error e => (none, some ("⚠️ Failed to extract text: " ++ e))
  | FileKind.docx =>
    match f.docxParas with
    | Except.ok paras => (some (String.intercalate "\n" paras), none)
    | Except.error e => (none, some ("⚠️ Failed to extract text: " ++ e))
  | FileKind.other => (none, some "Unsupported file type")

/-- Streamlit session state as the upload-handling block uses it:
`extracted_text` (absent until a truthy extraction stores it) and the
`use_file_content` flag. -/
structure SessionState where
  extracted_text : Option String
  use_file_content : Bool
  deriving DecidableEq

/-- The upload-handling block of variant 2 (lines 99–107): with no upload the
flag is cleared; with an upload, only a truthy (non-`None`, non-empty)
extraction stores the text and sets the flag — otherwise the session state is
left entirely unchanged.  Also returns the extraction's user-facing failure
message, if any. -/
def handle_upload (sst : SessionState) (upload : Option UploadedFile) :
    SessionState × Option String :=
  match upload with
  | none => ({ sst with use_file_content := false }, none)
  | some f =>
    match (extract_text_from_file f).1 with
    | some s =>
      if s = "" then (sst, (extract_text_from_file f).2)
      else ({ extracted_text := some s, use_file_content := true }, (extract_text_from_file f).2)
    | none => (sst, (extract_text_from_file f).2)

/-- The input-resolution step of variant 2 (lines 110–111): the extracted text
replaces the pasted text exactly when it is present in the session state and
the `use_file_content` flag is set. -/
def resolve_input (sst : SessionState) (txt_input : String) : String :=
  match sst.extracted_text with
  | some s => if sst.use_file_content then s else txt_input
  | none => txt_input

example : pyStrip "  \n hi \t" = "hi" := by decide
example : normalize_summary "Summary: A. Summary: B." = "A.  B." := by decide
example : spec_strip_leading "Summary: A. Summary: B." = "A. Summary: B." := by decide
example : formatPrompt "pre \x7btext\x7d post" "X" = "pre X post" := by decide

/-- Stripping the empty string yields the empty string. -/
theorem pyStrip_empty : pyStrip "" = "" := rfl

/-- A string with non-blank content fails the blank-input guard of
`generate_response`. -/
theorem blank_guard_false (txt : String) (hne : pyStrip txt ≠ "") :
    ¬(txt = "" ∨ pyStrip txt = "") := by
  rintro (h | h)
  · exact hne (h ▸ pyStrip_empty)
  · exact hne h

/-- Claim C3: for blank or whitespace-only input the submit handler returns
the fixed advisory message, leaves the cache untouched, and sends no prompt
to the remote service (the `Calling` state is never reached). -/
theorem c3_blank_input_rejected (c : Cache) (now : Nat) (chain : Option ChainT)
    (svc : Svc) (txt_input : String) (d : Density)
    (hblank : pyStrip txt_input = "") :
    summary_form c now chain svc txt_input d
      = ("📝 Please enter text before submitting", c, []) := by
  simp [summary_form, hblank]

/-- Witness for C3 at the concrete whitespace-only input `"  \n "`. -/
theorem c3_blank_input_rejected_witness :
    summary_form [] 0 none (fun _ => Except.error "unreachable") "  \n " Density.Balanced
      = ("📝 Please enter text before submitting", [], []) :=
  c3_blank_input_rejected [] 0 none (fun _ => Except.error "unreachable") "  \n "
    Density.Balanced (by decide)

/-- Claim C4: a successful (truthy) extraction this session makes the
extracted text the resolved input, overriding any pasted text; and when no
successful extraction is in effect (flag cleared or nothing stored) the
pasted text is resolved. -/
theorem c4_extraction_precedence (sst : SessionState) (f : UploadedFile)
    (txt_input s : String)
    (hok : (extract_text_from_file f).1 = some s) (hne : s ≠ "") :
    resolve_input (handle_upload sst (some f)).1 txt_input = s ∧
    ((sst.use_file_content = false ∨ sst.extracted_text = none) →
      resolve_input sst txt_input = txt_input) := by
  constructor
  · simp [handle_upload, hok, hne, resolve_input]
  · rintro (h | h)
    · cases hx : sst.extracted_text <;> simp [resolve_input, hx, h]
    · simp [resolve_input, h]

/-- Witness for C4: a two-page PDF extraction overrides the pasted text. -/
theorem c4_extraction_precedence_witness :
    resolve_input
      (handle_upload ⟨none, false⟩
        (some ⟨FileKind.pdf, Except.ok ["Hello ", "World"], Except.ok []⟩)).1
      "pasted" = "Hello World" ∧
    (((⟨none, false⟩ : SessionState).use_file_content = false ∨
        (⟨none, false⟩ : SessionState).extracted_text = none) →
      resolve_input ⟨none, false⟩ "pasted" = "pasted") :=
  c4_extraction_precedence ⟨none, false⟩
    ⟨FileKind.pdf, Except.ok ["Hello ", "World"], Except.ok []⟩
    "pasted" "Hello World" (by decide) (by decide)

/-- Claim C5: a cache entry inserted at time `T` is a hit at `T + TTL - 1`
(the stored string is returned, the cache is unchanged, and no prompt is
sent), and at `T + TTL + 1` it behaves as absent: the body runs afresh, its
result is stored at the new time, and its prompts are sent. -/
theorem c5_cache_ttl_boundary (c : Cache) (txt : String) (max_len min_len : Nat)
    (v : String) (T : Nat) (chain : Option ChainT) (svc : Svc) :
    generate_response (insertCache c (txt, max_len, min_len) v T)
        (T + cacheTTL - 1) chain svc txt max_len min_len
      = (v, insertCache c (txt, max_len, min_len) v T, []) ∧
    generate_response (insertCache c (txt, max_len, min_len) v T)
        (T + cacheTTL + 1) chain svc txt max_len min_len
      = ((generate_response_body chain svc txt max_len min_len).out,
         insertCache (insertCache c (txt, max_len, min_len) v T)
           (txt, max_len, min_len)
           (generate_response_body chain svc txt max_len min_len).out
           (T + cacheTTL + 1),
         (generate_response_body chain svc txt max_len min_len).calls) := by
  have hfresh : T + cacheTTL - 1 - T < cacheTTL := by
    unfold cacheTTL; omega
  have hstale : ¬(T + cacheTTL + 1 - T < cacheTTL) := by
    unfold cacheTTL; omega
  constructor
  · simp [generate_response, lookupCache, insertCache, lookupEntry, hfresh]
  · simp [generate_response, lookupCache, insertCache, lookupEntry, hstale]

/-- Claim C7: the density/length parameters do not influence the body of
`generate_response` at all — for any two settings the prompt sent to the
remote service and the returned result coincide (two-run noninterference of
the dead parameters). -/
theorem c7_density_noninterference (chain : Option ChainT) (svc : Svc)
    (txt : String) (max_len₁ min_len₁ max_len₂ min_len₂ : Nat) :
    generate_response_body chain svc txt max_len₁ min_len₁
      = generate_response_body chain svc txt max_len₂ min_len₂ := rfl

/-- Claim C9: an extraction yielding the empty string is treated as a failure
rather than valid empty content — the session state is left unchanged, so the
empty text is never stored and never displaces the pasted text. -/
theorem c9_empty_extraction_ignored (sst : SessionState) (f : UploadedFile)
    (txt_input : String)
    (hempty : (extract_text_from_file f).1 = some "") :
    (handle_upload sst (some f)).1 = sst ∧
    resolve_input (handle_upload sst (some f)).1 txt_input
      = resolve_input sst txt_input := by
  have h1 : (handle_upload sst (some f)).1 = sst := by
    simp [handle_upload, hempty]
  exact ⟨h1, by rw [h1]⟩

/-- Witness for C9: a DOCX with no paragraphs extracts to `""` and leaves the
session untouched. -/
theorem c9_empty_extraction_ignored_witness :
    (handle_upload ⟨none, false⟩
        (some ⟨FileKind.docx, Except.ok [], Except.ok []⟩)).1
      = (⟨none, false⟩ : SessionState) ∧
    resolve_input
        (handle_upload ⟨none, false⟩
          (some ⟨FileKind.docx, Except.ok [], Except.ok []⟩)).1 "pasted"
      = resolve_input ⟨none, false⟩ "pasted" :=
  c9_empty_extraction_ignored ⟨none, false⟩
    ⟨FileKind.docx, Except.ok [], Except.ok []⟩ "pasted" (by decide)

/-- Claim C10: `generate_response` is total at its interface — whatever the
cache, the chain and the remote oracle's outcome, it returns one of the
in-band strings: a cache-served value, the blank-input advisory, the
unavailable-model message, an error-prefixed message, or a normalized
summary.  Oracle exceptions (`Except.error`) are consumed, never propagated. -/
theorem c10_generate_response_total (c : Cache) (now : Nat)
    (chain : Option ChainT) (svc : Svc) (txt : String) (max_len min_len : Nat) :
    lookupCache c (txt, max_len, min_len) now
        = some (generate_response c now chain svc txt max_len min_len).1 ∨
    (generate_response c now chain svc txt max_len min_len).1
        = "Please enter valid text" ∨
    (generate_response c now chain svc txt max_len min_len).1
        = "⚙️ Model unavailable" ∨
    (∃ e, (generate_response c now chain svc txt max_len min_len).1
        = "⚠️ Error: " ++ e) ∨
    (∃ raw, (generate_response c now chain svc txt max_len min_len).1
        = normalize_summary raw) := by
  cases hx : lookupCache c (txt, max_len, min_len) now with
  | some v => left; simp [generate_response, hx]
  | none =>
    right
    have hbody : (generate_response c now chain svc txt max_len min_len).1
        = (generate_response_body chain svc txt max_len min_len).out := by
      simp [generate_response, hx]
    rw [hbody]
    unfold generate_response_body
    split
    · left; rfl
    · cases chain with
      | none => right; left; rfl
      | some ch =>
        cases hs : svc (formatPrompt ch.template txt) with
        | ok summary => right; right; right; exact ⟨summary, by simp [hs]⟩
        | error e => right; right; left; exact ⟨e, by simp [hs]⟩

/-- Counterexample to claim C1: the in-band error string returned after a
remote failure *is* written to the `st.cache_data` store (the body returned
normally, so its value is memoized).  Concretely: with an empty cache, a
service that always raises `"boom"`, and input `"hello"`, the first call at
time 0 yields `"⚠️ Error: boom"`, and an identical request at time 10 (inside
the TTL window) returns the same error string from the cache while sending no
prompt at all — it does not re-invoke the remote service as the claim states. -/
theorem c1_error_result_served_from_cache_concrete :
    (generate_response [] 0 (some ⟨app2_template⟩)
        (fun _ => Except.error "boom") "hello" 150 90).1 = "⚠️ Error: boom" ∧
    (generate_response
        (generate_response [] 0 (some ⟨app2_template⟩)
          (fun _ => Except.error "boom") "hello" 150 90).2.1
        10 (some ⟨app2_template⟩)
        (fun _ => Except.error "boom") "hello" 150 90).1 = "⚠️ Error: boom" ∧
    (generate_response
        (generate_response [] 0 (some ⟨app2_template⟩)
          (fun _ => Except.error "boom") "hello" 150 90).2.1
        10 (some ⟨app2_template⟩)
        (fun _ => Except.error "boom") "hello" 150 90).2.2 = ([] : List String) := by
  refine ⟨rfl, rfl, rfl⟩

/-- Claim C1 as amended: when the remote call fails, the orchestrator returns
a non-empty error-indicating string rather than propagating a fault, but the
failed attempt *is* cached: any identical `(content, density)` request within
the TTL window is served that error string from the cache and the remote
service is not re-invoked. -/
theorem c1_service_failure_cached_and_reused (c : Cache) (t₁ t₂ : Nat)
    (ch : ChainT) (svc : Svc) (txt : String) (max_len min_len : Nat) (e : String)
    (hmiss : lookupCache c (txt, max_len, min_len) t₁ = none)
    (hne : pyStrip txt ≠ "")
    (hsvc : svc (formatPrompt ch.template txt) = Except.error e)
    (httl : t₂ - t₁ < cacheTTL) :
    (generate_response c t₁ (some ch) svc txt max_len min_len).1
      = "⚠️ Error: " ++ e ∧
    (generate_response c t₁ (some ch) svc txt max_len min_len).1 ≠ "" ∧
    generate_response
        (generate_response c t₁ (some ch) svc txt max_len min_len).2.1
        t₂ (some ch) svc txt max_len min_len
      = ("⚠️ Error: " ++ e,
         (generate_response c t₁ (some ch) svc txt max_len min_len).2.1,
         []) := by
  have hguard := blank_guard_false txt hne
  have hbody : generate_response_body (some ch) svc txt max_len min_len
      = { out := "⚠️ Error: " ++ e, calls := [formatPrompt ch.template txt] } := by
    simp [generate_response_body, hguard, hsvc]
  have hrun1 : generate_response c t₁ (some ch) svc txt max_len min_len
      = ("⚠️ Error: " ++ e,
         insertCache c (txt, max_len, min_len) ("⚠️ Error: " ++ e) t₁,
         [formatPrompt ch.template txt]) := by
    simp [generate_response, hmiss, hbody]
  have hnonempty : ("⚠️ Error: " ++ e) ≠ "" := by
    intro h
    have hlen := congrArg String.length h
    have hx : ("⚠️ Error: " : String).length = 10 := rfl
    have hz : ("" : String).length = 0 := rfl
    rw [String.length_append, hx, hz] at hlen
    omega
  refine ⟨by rw [hrun1], by rw [hrun1]; exact hnonempty, ?_⟩
  rw [hrun1]
  simp [generate_response, lookupCache, insertCache, lookupEntry, httl]

/-- Witness for the amended C1 at a concrete failing service. -/
theorem c1_service_failure_cached_and_reused_witness :
    (generate_response [] 0 (some ⟨app1_template⟩)
        (fun _ => Except.error "timeout") "some text" 80 40).1
      = "⚠️ Error: " ++ "timeout" ∧
    (generate_response [] 0 (some ⟨app1_template⟩)
        (fun _ => Except.error "timeout") "some text" 80 40).1 ≠ "" ∧
    generate_response
        (generate_response [] 0 (some ⟨app1_template⟩)
          (fun _ => Except.error "timeout") "some text" 80 40).2.1
        5 (some ⟨app1_template⟩)
        (fun _ => Except.error "timeout") "some text" 80 40
      = ("⚠️ Error: " ++ "timeout",
         (generate_response [] 0 (some ⟨app1_template⟩)
           (fun _ => Except.error "timeout") "some text" 80 40).2.1,
         []) :=
  c1_service_failure_cached_and_reused [] 0 5 ⟨app1_template⟩
    (fun _ => Except.error "timeout") "some text" 80 40 "timeout"
    rfl (by decide) rfl (by decide)

/-- Counterexample to claim C2: the code runs
`summary.replace("Summary:", "").strip()`, which removes *every* occurrence of
`"Summary:"`, not only a leading label.  On the raw response
`"Summary: A. Summary: B."` the pipeline returns `"A.  B."`, whereas the
claim (one leading label removed, inner occurrences preserved,
`spec_strip_leading`) predicts `"A. Summary: B."`. -/
theorem c2_replace_all_counterexample :
    (generate_response_body (some ⟨app1_template⟩)
        (fun _ => Except.ok "Summary: A. Summary: B.") "x" 80 40).out
      = "A.  B." ∧
    spec_strip_leading "Summary: A. Summary: B." = "A. Summary: B." ∧
    ("A.  B." : String) ≠ "A. Summary: B." := by
  refine ⟨rfl, by decide, by decide⟩

/-- Claim C2 as amended: the string returned by the summarization client for
a raw response `raw` equals `raw` with *every* occurrence of the substring
`"Summary:"` removed (left to right, non-overlapping) and the result stripped
of leading/trailing whitespace; inner occurrences are removed as well, not
preserved. -/
theorem c2_client_removes_all_labels (ch : ChainT) (svc : Svc) (txt : String)
    (max_len min_len : Nat) (raw : String)
    (hne : pyStrip txt ≠ "")
    (hsvc : svc (formatPrompt ch.template txt) = Except.ok raw) :
    (generate_response_body (some ch) svc txt max_len min_len).out
      = pyStrip (String.mk (removeSummaryAll raw.toList)) := by
  have hguard := blank_guard_false txt hne
  simp [generate_response_body, hguard, hsvc, normalize_summary]

/-- Witness for the amended C2 at a concrete raw response. -/
theorem c2_client_removes_all_labels_witness :
    (generate_response_body (some ⟨app1_template⟩)
        (fun _ => Except.ok " Summary: x ") "hi" 80 40).out
      = pyStrip (String.mk (removeSummaryAll (" Summary: x ").toList)) :=
  c2_client_removes_all_labels ⟨app1_template⟩ (fun _ => Except.ok " Summary: x ")
    "hi" 80 40 " Summary: x " (by decide) rfl

/-- Counterexample to claim C6: variant 1 performs no startup check for the
API key.  With an empty environment, variant 1's startup proceeds to accept
input (while variant 2's halts), and the missing credential surfaces only
later, during a submission, as the in-band runtime message
`"⚙️ Model unavailable"` — contradicting the claim for "every run of either
application variant". -/
theorem c6_variant1_no_startup_halt_concrete :
    app1_startup none = true ∧
    app2_startup none = false ∧
    (generate_response_body (load_summarizer1 none)
        (fun _ => Except.ok "S") "Some text" 150 90).out
      = "⚙️ Model unavailable" := by
  refine ⟨rfl, rfl, rfl⟩

/-- Claim C6 as amended: variant 2 halts at startup when the API key is
absent; variant 1 starts normally, its `load_summarizer` yields no chain, and
the missing credential is surfaced at submission time as the in-band message
`"⚙️ Model unavailable"`. -/
theorem c6_missing_key_behavior (env : Option String) (svc : Svc) (txt : String)
    (max_len min_len : Nat)
    (henv : env = none) (hne : pyStrip txt ≠ "") :
    app2_startup env = false ∧
    app1_startup env = true ∧
    (generate_response_body (load_summarizer1 env) svc txt max_len min_len).out
      = "⚙️ Model unavailable" := by
  subst henv
  have hguard := blank_guard_false txt hne
  refine ⟨rfl, rfl, ?_⟩
  simp [generate_response_body, load_summarizer1, hguard]

/-- Witness for the amended C6 with a concrete submission. -/
theorem c6_missing_key_behavior_witness :
    app2_startup none = false ∧
    app1_startup none = true ∧
    (generate_response_body (load_summarizer1 none)
        (fun _ => Except.ok "") "hi" 80 40).out = "⚙️ Model unavailable" :=
  c6_missing_key_behavior none (fun _ => Except.ok "") "hi" 80 40 rfl (by decide)

/-- Counterexample to claim C8: a failed extraction leaves the session state
entirely unchanged, so if an *earlier* successful extraction is still in
effect (`use_file_content` set, text stored), the resolved input is that
earlier extracted text — not the pasted text the claim says the pipeline
falls back to.  The failure is still reported as a user-facing message. -/
theorem c8_stale_extraction_wins_concrete :
    (extract_text_from_file
        ⟨FileKind.pdf, Except.error "bad xref", Except.ok []⟩).1 = none ∧
    (extract_text_from_file
        ⟨FileKind.pdf, Except.error "bad xref", Except.ok []⟩).2
      = some "⚠️ Failed to extract text: bad xref" ∧
    resolve_input
        (handle_upload ⟨some "OLD", true⟩
          (some ⟨FileKind.pdf, Except.error "bad xref", Except.ok []⟩)).1
        "PASTED"
      = "OLD" ∧
    ("OLD" : String) ≠ "PASTED" := by
  refine ⟨rfl, rfl, rfl, by decide⟩

/-- Claim C8 as amended: a failed extraction is reported with a user-facing
message and never supplies content (the session state is unchanged); the
resolved input falls back to the pasted text whenever no earlier successful
extraction is still in effect — otherwise that earlier extracted text is
resolved instead. -/
theorem c8_extraction_failure_fallback (sst : SessionState) (f : UploadedFile)
    (txt_input : String)
    (hfail : (extract_text_from_file f).1 = none) :
    (handle_upload sst (some f)).1 = sst ∧
    (extract_text_from_file f).2.isSome = true ∧
    ((sst.use_file_content = false ∨ sst.extracted_text = none) →
      resolve_input (handle_upload sst (some f)).1 txt_input = txt_input) := by
  have h1 : (handle_upload sst (some f)).1 = sst := by
    simp [handle_upload, hfail]
  refine ⟨h1, ?_, ?_⟩
  · rcases f with ⟨kind, pp, dp⟩
    cases kind with
    | pdf =>
      cases pp with
      | ok pages => simp [extract_text_from_file] at hfail
      | error e => simp [extract_text_from_file]
    | docx =>
      cases dp with
      | ok paras => simp [extract_text_from_file] at hfail
      | error e => simp [extract_text_from_file]
    | other => simp [extract_text_from_file]
  · rintro (h | h)
    · rw [h1]
      cases hx : sst.extracted_text <;> simp [resolve_input, hx, h]
    · rw [h1]; simp [resolve_input, h]

/-- Witness for the amended C8: an unsupported upload in a fresh session
falls back to the pasted text, with a warning shown. -/
theorem c8_extraction_failure_fallback_witness :
    (handle_upload ⟨none, false⟩
        (some ⟨FileKind.other, Except.ok [], Except.ok []⟩)).1
      = (⟨none, false⟩ : SessionState) ∧
    (extract_text_from_file
        ⟨FileKind.other, Except.ok [], Except.ok []⟩).2.isSome = true ∧
    (((⟨none, false⟩ : SessionState).use_file_content = false ∨
        (⟨none, false⟩ : SessionState).extracted_text = none) →
      resolve_input
          (handle_upload ⟨none, false⟩
            (some ⟨FileKind.other, Except.ok [], Except.ok []⟩)).1
          "pasted"
        = "pasted") :=
  c8_extraction_failure_fallback ⟨none, false⟩
    ⟨FileKind.other, Except.ok [], Except.ok []⟩ "pasted" (by decide)
